import Mathlib

/-!
Laixi WebSocket API demo dialog: connection flag and button handlers.

Shallow embedding of `CLaixiWSAPIDemoDlg` from
`sdk/laixi_wsapi_test/C++/Laixi_WS_API_DemoDlg.cpp` (and its header).

The dialog owns one Boost.Beast WebSocket stream `m_ws` and one boolean
`m_connectWS`.  Five button handlers call into the library.  The library is
not part of the repository, so every library call that can throw takes its
outcome (returned normally / threw) from an explicit `NetOutcome` argument,
and every handler returns, next to the new dialog state, the list of library
calls it made and whether an exception left the handler.
-/

namespace Laixi

/-! ## C++ string literals -/

/-- Code point of the backslash. -/
def backslash : Char := Char.ofNat 92

/-- Code point of the double quote. -/
def dquote : Char := Char.ofNat 34

/-- Code point of the line feed. -/
def newline : Char := Char.ofNat 10

/-- Code point of the horizontal tab. -/
def tab : Char := Char.ofNat 9

/-- Translation phase 2 of C++: every backslash that is immediately followed
by a new-line is deleted together with that new-line, joining the two
physical source lines.  Nothing else is removed; in particular the
indentation of the second line stays. -/
def spliceLines : List Char → List Char
  | [] => []
  | [c] => [c]
  | c :: n :: rest =>
    if c = backslash ∧ n = newline then spliceLines rest
    else c :: spliceLines (n :: rest)

/-- Value of a simple escape sequence, given the character after the
backslash: new-line for `n`, tab for `t`, and the character itself otherwise
(quote, backslash).  The three literals of the dialog use only the escaped
quote. -/
def escapeValue (c : Char) : Char :=
  if c = 'n' then newline else if c = 't' then tab else c

/-- Translation of the body of an ordinary string literal to its value:
each backslash and the character after it become one character. -/
def unescape : List Char → List Char
  | [] => []
  | [c] => [c]
  | c :: n :: rest =>
    if c = backslash then escapeValue n :: unescape rest
    else c :: unescape (n :: rest)

/-- Value of the string literal whose body (the source characters between
the opening and the closing quote, line break included) is `src`. -/
def literalValue (src : String) : String :=
  String.mk (unescape (spliceLines src.data))

/-- Body of the literal in `OnBnClickedButtonLaunchApp` (source lines
220-221): the first line ends in a backslash, the second line starts with
two tabs. -/
def launchAppLiteral : String :=
  "\x7b\\\"action\\\":\\\"GetAppInfoByAppName\\\",\\\"comm\\\":\\\n\t\t\x7b\\\"deviceIds\\\":\\\"all\\\", \\\"appName\\\":\\\"Laixi\\\"\x7d\x7d"

/-- Body of the literal in `OnBnClickedButtonToast` (source lines 232-233):
the first line ends in a backslash, the second line starts with four spaces
and two tabs. -/
def toastLiteral : String :=
  "\x7b\\\"action\\\":\\\"Toast\\\",\\\"comm\\\":\\\n    \t\t\x7b\\\"deviceIds\\\":\\\"all\\\", \\\"content\\\":\\\"toast test\\\"\x7d\x7d"

/-- Body of the literal in `OnBnClickedButtonSlideUp` (source lines
244-245): the first line ends in a backslash, the second line starts with
two tabs. -/
def slideUpLiteral : String :=
  "\x7b\\\"action\\\":\\\"PointerEvent\\\",\\\"comm\\\":\\\n\t\t\x7b\\\"deviceIds\\\":\\\"all\\\", \\\"mask\\\":6,\\\"x\\\":50, \\\"y\\\":50, \\\"endx\\\":50,\\\"endy\\\":20, \\\"delta\\\":2\x7d\x7d"

/-- Payload the specification names for the Toast command: no white space
outside the string values. -/
def specToastPayload : String :=
  "\x7b\"action\":\"Toast\",\"comm\":\x7b\"deviceIds\":\"all\",\"content\":\"toast test\"\x7d\x7d"

/-- Whether a character is JSON white space (space, tab, line feed,
carriage return). -/
def isJsonSpace (c : Char) : Bool :=
  c = Char.ofNat 32 || c = tab || c = newline || c = Char.ofNat 13

/-- Removal of the white space that JSON ignores: white space is dropped
outside string values and kept inside them.  `inStr` tells whether the
scan is inside a string value, `esc` whether the previous character was an
escaping backslash. -/
def stripJsonSpace : Bool → Bool → List Char → List Char
  | _, _, [] => []
  | false, _, c :: rest =>
    if isJsonSpace c then stripJsonSpace false false rest
    else if c = dquote then c :: stripJsonSpace true false rest
    else c :: stripJsonSpace false false rest
  | true, true, c :: rest => c :: stripJsonSpace true false rest
  | true, false, c :: rest =>
    if c = backslash then c :: stripJsonSpace true true rest
    else if c = dquote then c :: stripJsonSpace false false rest
    else c :: stripJsonSpace true false rest

/-- A JSON text with its insignificant white space removed. -/
def compactJson (s : String) : String :=
  String.mk (stripJsonSpace false false s.data)

/-! ## The dialog and the library calls -/

/-- Library calls of the handlers that touch the network objects `m_resolver`
and `m_ws`.  `make_address("127.0.0.1")` and `atoi("22221")` work on
constants and are left out. -/
inductive Call where
  /-- Call `m_resolver.resolve(endpoint)`. -/
  | resolve
  /-- Call `net::connect(m_ws.next_layer(), ...)`. -/
  | connect
  /-- Call `m_ws.set_option(decorator)`, which installs the user agent. -/
  | ws_set_option
  /-- Call `m_ws.handshake("127.0.0.1", "/")`. -/
  | handshake
  /-- Call `m_ws.close(websocket::close_code::normal)`. -/
  | close
  /-- Call `m_ws.write(net::buffer(strdata))`. -/
  | write (strdata : String)
  deriving DecidableEq, Repr

/-- Outcome of the throwing library calls during one handler invocation:
`true` when the call returns normally, `false` when it throws
`boost::system::system_error` (a `std::exception`). -/
structure NetOutcome where
  resolve : Bool
  connect : Bool
  handshake : Bool
  close : Bool
  write : Bool
  deriving DecidableEq, Repr

/-- Members of `CLaixiWSAPIDemoDlg` that the handlers read or assign.
`p_recv_thread` is `none` for `nullptr`. -/
structure CLaixiWSAPIDemoDlg where
  m_connectWS : Bool
  p_recv_thread : Option Nat
  deriving DecidableEq, Repr

/-- The constructor `CLaixiWSAPIDemoDlg::CLaixiWSAPIDemoDlg` (source lines 51-57): `m_connectWS = false`,
`p_recv_thread = nullptr`. -/
def CLaixiWSAPIDemoDlg.ctor : CLaixiWSAPIDemoDlg :=
  { m_connectWS := false, p_recv_thread := none }

/-- What one handler invocation did: the dialog afterwards, the library
calls made in order (each with whether it returned normally), whether the
`catch` branch wrote its `Error:` line to `std::cerr`, and whether an
exception left the handler. -/
structure HandlerResult where
  dlg : CLaixiWSAPIDemoDlg
  calls : List (Call × Bool)
  cerr : Bool
  escaped : Bool
  deriving DecidableEq, Repr

/-- A sequence of statements, each one library call given with its outcome:
the calls run in order and the first one that throws ends the sequence.
Returns the calls made and whether the end of the sequence was reached. -/
def runCalls : List (Call × Bool) → List (Call × Bool) × Bool
  | [] => ([], true)
  | (c, ok) :: rest =>
    if ok then ((c, true) :: (runCalls rest).1, (runCalls rest).2)
    else ([(c, false)], false)

/-- Handler of the Connect button (source lines 168-201). -/
def OnBnClickedButtonConnect (net : NetOutcome) (d : CLaixiWSAPIDemoDlg) : HandlerResult :=
  if d.m_connectWS = false then
    -- try
    let body := runCalls [(Call.resolve, net.resolve), (Call.connect, net.connect),
      (Call.ws_set_option, true), (Call.handshake, net.handshake)]
    if body.2 then
      { dlg := { d with m_connectWS := true }, calls := body.1, cerr := false, escaped := false }
    else
      -- catch (std::exception const& e)
      { dlg := { d with m_connectWS := false }, calls := body.1, cerr := true, escaped := false }
  else
    { dlg := d, calls := [], cerr := false, escaped := false }

/-- Handler of the Disconnect button (source lines 204-212): no `try`, no
assignment to `m_connectWS`. -/
def OnBnClickedButtonDisconnect (net : NetOutcome) (d : CLaixiWSAPIDemoDlg) : HandlerResult :=
  if d.m_connectWS = true then
    let body := runCalls [(Call.close, net.close)]
    { dlg := d, calls := body.1, cerr := false, escaped := !body.2 }
  else
    { dlg := d, calls := [], cerr := false, escaped := false }

/-- Common shape of the three send handlers: under the guard
`true == m_connectWS`, one `m_ws.write` of the literal; no `try`, no
assignment to `m_connectWS`. -/
def sendLiteral (literal : String) (net : NetOutcome) (d : CLaixiWSAPIDemoDlg) : HandlerResult :=
  if d.m_connectWS = true then
    let strdata := literalValue literal
    let body := runCalls [(Call.write strdata, net.write)]
    { dlg := d, calls := body.1, cerr := false, escaped := !body.2 }
  else
    { dlg := d, calls := [], cerr := false, escaped := false }

/-- Handler of the Launch App button (source lines 215-224). -/
def OnBnClickedButtonLaunchApp (net : NetOutcome) (d : CLaixiWSAPIDemoDlg) : HandlerResult :=
  sendLiteral launchAppLiteral net d

/-- Handler of the Toast button (source lines 227-236). -/
def OnBnClickedButtonToast (net : NetOutcome) (d : CLaixiWSAPIDemoDlg) : HandlerResult :=
  sendLiteral toastLiteral net d

/-- Handler of the Slide Up button (source lines 239-249). -/
def OnBnClickedButtonSlideUp (net : NetOutcome) (d : CLaixiWSAPIDemoDlg) : HandlerResult :=
  sendLiteral slideUpLiteral net d

/-- The five buttons of the message map (source lines 68-72). -/
inductive Button where
  | IDC_BUTTON_CONNECT
  | IDC_BUTTON_DISCONNECT
  | IDC_BUTTON_LAUNCH_APP
  | IDC_BUTTON_TOAST
  | IDC_BUTTON_SLIDE_UP
  deriving DecidableEq, Repr

/-- The message map: the handler bound to each button. -/
def dispatch : Button → NetOutcome → CLaixiWSAPIDemoDlg → HandlerResult
  | Button.IDC_BUTTON_CONNECT => OnBnClickedButtonConnect
  | Button.IDC_BUTTON_DISCONNECT => OnBnClickedButtonDisconnect
  | Button.IDC_BUTTON_LAUNCH_APP => OnBnClickedButtonLaunchApp
  | Button.IDC_BUTTON_TOAST => OnBnClickedButtonToast
  | Button.IDC_BUTTON_SLIDE_UP => OnBnClickedButtonSlideUp

/-- A sequence of button clicks, each with the outcome of its library
calls, applied to a dialog; the results of the handlers are collected in
order.  A click whose handler lets an exception escape is recorded like any
other and the dialog object stays as that handler left it. -/
def clicks : List (Button × NetOutcome) → CLaixiWSAPIDemoDlg → List HandlerResult
  | [], _ => []
  | (b, net) :: rest, d => dispatch b net d :: clicks rest (dispatch b net d).dlg

/-- The dialog after a sequence of button clicks. -/
def dlgAfter : List (Button × NetOutcome) → CLaixiWSAPIDemoDlg → CLaixiWSAPIDemoDlg
  | [], d => d
  | (b, net) :: rest, d => dlgAfter rest (dispatch b net d).dlg

/-- Number of successful handshakes among the library calls of a sequence of
handler results. -/
def handshakeCount (rs : List HandlerResult) : Nat :=
  (rs.map (fun r => r.calls.count (Call.handshake, true))).sum

/-- States of the session in the data model of the specification. -/
inductive SessionState where
  | Disconnected
  | Connecting
  | Connected
  | Closing
  deriving DecidableEq, Repr

/-- The session state the dialog is in: `m_connectWS` is the only record of
it that the dialog keeps. -/
def CLaixiWSAPIDemoDlg.state (d : CLaixiWSAPIDemoDlg) : SessionState :=
  if d.m_connectWS then SessionState.Connected else SessionState.Disconnected

/-- All library calls succeed. -/
def netOk : NetOutcome :=
  { resolve := true, connect := true, handshake := true, close := true, write := true }

/-- The write fails, everything else succeeds. -/
def netWriteFails : NetOutcome :=
  { resolve := true, connect := true, handshake := true, close := true, write := false }

/-- The close fails, everything else succeeds. -/
def netCloseFails : NetOutcome :=
  { resolve := true, connect := true, handshake := true, close := false, write := true }

/-- The handshake is refused, everything else succeeds. -/
def netHandshakeFails : NetOutcome :=
  { resolve := true, connect := true, handshake := false, close := true, write := true }

/-- The dialog after construction and one successful click on Connect. -/
def connectedDlg : CLaixiWSAPIDemoDlg :=
  (OnBnClickedButtonConnect netOk CLaixiWSAPIDemoDlg.ctor).dlg

/-- Value of the Toast literal written out: after `"comm":` come the four
spaces and two tabs that indent source line 233, and a space follows the
comma after `"all"`. -/
def toastPayload : String :=
  "\x7b\"action\":\"Toast\",\"comm\":    \t\t\x7b\"deviceIds\":\"all\", \"content\":\"toast test\"\x7d\x7d"

/-! ## Helper lemmas -/

theorem literalValue_toastLiteral : literalValue toastLiteral = toastPayload := by
  decide

theorem state_connected_iff (d : CLaixiWSAPIDemoDlg) :
    d.state = SessionState.Connected ↔ d.m_connectWS = true := by
  rcases d with ⟨b, p⟩
  cases b <;> simp [CLaixiWSAPIDemoDlg.state]

theorem state_disconnected_iff (d : CLaixiWSAPIDemoDlg) :
    d.state = SessionState.Disconnected ↔ d.m_connectWS = false := by
  rcases d with ⟨b, p⟩
  cases b <;> simp [CLaixiWSAPIDemoDlg.state]

theorem runCalls_single (c : Call) (ok : Bool) :
    runCalls [(c, ok)] = ([(c, ok)], ok) := by
  cases ok <;> simp [runCalls]

theorem sendLiteral_of_flag (literal : String) (net : NetOutcome) (d : CLaixiWSAPIDemoDlg)
    (h : d.m_connectWS = true) :
    sendLiteral literal net d =
      { dlg := d, calls := [(Call.write (literalValue literal), net.write)],
        cerr := false, escaped := !net.write } := by
  simp [sendLiteral, h, runCalls_single]

theorem sendLiteral_of_not_flag (literal : String) (net : NetOutcome) (d : CLaixiWSAPIDemoDlg)
    (h : d.m_connectWS = false) :
    sendLiteral literal net d = { dlg := d, calls := [], cerr := false, escaped := false } := by
  simp [sendLiteral, h]

theorem disconnect_of_flag (net : NetOutcome) (d : CLaixiWSAPIDemoDlg)
    (h : d.m_connectWS = true) :
    OnBnClickedButtonDisconnect net d =
      { dlg := d, calls := [(Call.close, net.close)], cerr := false, escaped := !net.close } := by
  simp [OnBnClickedButtonDisconnect, h, runCalls_single]

theorem connect_of_flag (net : NetOutcome) (d : CLaixiWSAPIDemoDlg)
    (h : d.m_connectWS = true) :
    OnBnClickedButtonConnect net d = { dlg := d, calls := [], cerr := false, escaped := false } := by
  simp [OnBnClickedButtonConnect, h]

theorem connect_flag_of_not_flag (net : NetOutcome) (d : CLaixiWSAPIDemoDlg)
    (h : d.m_connectWS = false) :
    (OnBnClickedButtonConnect net d).dlg.m_connectWS
      = (net.resolve && net.connect && net.handshake) := by
  rcases net with ⟨r, c, hs, cl, w⟩
  cases r <;> cases c <;> cases hs <;> simp [OnBnClickedButtonConnect, h, runCalls]

theorem connect_count_of_not_flag (net : NetOutcome) (d : CLaixiWSAPIDemoDlg)
    (h : d.m_connectWS = false) :
    (OnBnClickedButtonConnect net d).calls.count (Call.handshake, true)
      = if (OnBnClickedButtonConnect net d).dlg.m_connectWS = true then 1 else 0 := by
  rcases net with ⟨r, c, hs, cl, w⟩
  cases r <;> cases c <;> cases hs <;> simp [OnBnClickedButtonConnect, h, runCalls]

theorem dispatch_keeps_flag (b : Button) (net : NetOutcome) (d : CLaixiWSAPIDemoDlg)
    (h : d.m_connectWS = true) :
    (dispatch b net d).dlg = d := by
  cases b <;>
    simp [dispatch, connect_of_flag, disconnect_of_flag, sendLiteral_of_flag,
      OnBnClickedButtonLaunchApp, OnBnClickedButtonToast, OnBnClickedButtonSlideUp, h]

theorem dispatch_no_handshake_of_flag (b : Button) (net : NetOutcome) (d : CLaixiWSAPIDemoDlg)
    (h : d.m_connectWS = true) :
    (dispatch b net d).calls.count (Call.handshake, true) = 0 := by
  cases b <;>
    simp [dispatch, connect_of_flag, disconnect_of_flag, sendLiteral_of_flag,
      OnBnClickedButtonLaunchApp, OnBnClickedButtonToast, OnBnClickedButtonSlideUp, h]

theorem dispatch_of_not_flag (b : Button) (net : NetOutcome) (d : CLaixiWSAPIDemoDlg)
    (h : d.m_connectWS = false) (hb : b ≠ Button.IDC_BUTTON_CONNECT) :
    dispatch b net d = { dlg := d, calls := [], cerr := false, escaped := false } := by
  cases b <;>
    simp_all [dispatch, OnBnClickedButtonDisconnect, sendLiteral_of_not_flag,
      OnBnClickedButtonLaunchApp, OnBnClickedButtonToast, OnBnClickedButtonSlideUp]

theorem dlgAfter_of_flag (evs : List (Button × NetOutcome)) (d : CLaixiWSAPIDemoDlg)
    (h : d.m_connectWS = true) :
    dlgAfter evs d = d := by
  induction evs with
  | nil => rfl
  | cons e rest ih =>
    rcases e with ⟨b, net⟩
    simp [dlgAfter, dispatch_keeps_flag b net d h, ih]

theorem dlgAfter_append (pre post : List (Button × NetOutcome)) (d : CLaixiWSAPIDemoDlg) :
    dlgAfter (pre ++ post) d = dlgAfter post (dlgAfter pre d) := by
  induction pre generalizing d with
  | nil => rfl
  | cons e rest ih =>
    rcases e with ⟨b, net⟩
    simp [dlgAfter, ih]

theorem handshakeCount_cons (r : HandlerResult) (rs : List HandlerResult) :
    handshakeCount (r :: rs) = r.calls.count (Call.handshake, true) + handshakeCount rs := by
  simp [handshakeCount]

theorem handshakeCount_clicks_of_flag (evs : List (Button × NetOutcome))
    (d : CLaixiWSAPIDemoDlg) (h : d.m_connectWS = true) :
    handshakeCount (clicks evs d) = 0 := by
  induction evs with
  | nil => simp [clicks, handshakeCount]
  | cons e rest ih =>
    rcases e with ⟨b, net⟩
    simp [clicks, handshakeCount_cons, dispatch_no_handshake_of_flag b net d h,
      dispatch_keeps_flag b net d h, ih]

theorem handshakeCount_clicks_le_one (evs : List (Button × NetOutcome))
    (d : CLaixiWSAPIDemoDlg) :
    handshakeCount (clicks evs d) ≤ 1 := by
  induction evs generalizing d with
  | nil => simp [clicks, handshakeCount]
  | cons e rest ih =>
    rcases e with ⟨b, net⟩
    cases hd : d.m_connectWS with
    | true => rw [handshakeCount_clicks_of_flag _ d hd]; exact Nat.zero_le 1
    | false =>
      by_cases hb : b = Button.IDC_BUTTON_CONNECT
      · subst hb
        simp only [clicks, handshakeCount_cons, dispatch]
        rw [connect_count_of_not_flag net d hd]
        cases hr : (OnBnClickedButtonConnect net d).dlg.m_connectWS with
        | true => simp [handshakeCount_clicks_of_flag rest _ hr]
        | false => simpa using ih _
      · simp only [clicks, handshakeCount_cons, dispatch_of_not_flag b net d hd hb]
        simpa using ih d

/-! ## Connect -/

/-- Claim C1. From a dialog in state Disconnected, after the Connect handler
the state is Connected exactly when the resolve, the TCP connect and the
handshake all returned normally; when one of them threw, the state is
Disconnected; the state is never Connecting or Closing, and no exception
leaves the handler. -/
theorem connect_from_disconnected (net : NetOutcome) (d : CLaixiWSAPIDemoDlg)
    (h : d.state = SessionState.Disconnected) :
    ((OnBnClickedButtonConnect net d).dlg.state = SessionState.Connected ↔
        (net.resolve = true ∧ net.connect = true ∧ net.handshake = true)) ∧
      (¬ (net.resolve = true ∧ net.connect = true ∧ net.handshake = true) →
        (OnBnClickedButtonConnect net d).dlg.state = SessionState.Disconnected) ∧
      (OnBnClickedButtonConnect net d).dlg.state ≠ SessionState.Connecting ∧
      (OnBnClickedButtonConnect net d).dlg.state ≠ SessionState.Closing ∧
      (OnBnClickedButtonConnect net d).escaped = false := by
  have hf : d.m_connectWS = false := (state_disconnected_iff d).mp h
  have hflag := connect_flag_of_not_flag net d hf
  refine ⟨?_, ?_, ?_, ?_, ?_⟩
  · rw [state_connected_iff, hflag]
    simp [and_assoc]
  · intro hn
    rw [state_disconnected_iff, hflag]
    simpa [and_assoc] using hn
  · cases hr : (OnBnClickedButtonConnect net d).dlg.m_connectWS <;>
      simp [CLaixiWSAPIDemoDlg.state, hr]
  · cases hr : (OnBnClickedButtonConnect net d).dlg.m_connectWS <;>
      simp [CLaixiWSAPIDemoDlg.state, hr]
  · rcases net with ⟨r, c, hs, cl, w⟩
    cases r <;> cases c <;> cases hs <;> simp [OnBnClickedButtonConnect, hf, runCalls]

/-- Witness of C1: the freshly constructed dialog with a refused handshake. -/
theorem connect_from_disconnected_witness :
    CLaixiWSAPIDemoDlg.ctor.state = SessionState.Disconnected ∧
      (OnBnClickedButtonConnect netHandshakeFails CLaixiWSAPIDemoDlg.ctor).dlg.state
        = SessionState.Disconnected :=
  ⟨by decide,
    (connect_from_disconnected netHandshakeFails CLaixiWSAPIDemoDlg.ctor (by decide)).2.1
      (by decide)⟩

/-- Claim C7. On a dialog in state Connected the Connect handler does
nothing: it makes no library call (no resolve, no TCP connect, no
set_option, no handshake), leaves the dialog as it was, so the state stays
Connected, and no exception leaves it. -/
theorem connect_when_connected (net : NetOutcome) (d : CLaixiWSAPIDemoDlg)
    (h : d.state = SessionState.Connected) :
    (OnBnClickedButtonConnect net d).calls = [] ∧
      (OnBnClickedButtonConnect net d).dlg = d ∧
      (OnBnClickedButtonConnect net d).dlg.state = SessionState.Connected ∧
      (OnBnClickedButtonConnect net d).escaped = false := by
  have hf : d.m_connectWS = true := (state_connected_iff d).mp h
  rw [connect_of_flag net d hf]
  exact ⟨rfl, rfl, h, rfl⟩

/-- Witness of C7: a second click on Connect after a successful one. -/
theorem connect_when_connected_witness :
    connectedDlg.state = SessionState.Connected ∧
      (OnBnClickedButtonConnect netOk connectedDlg).calls = [] ∧
      (OnBnClickedButtonConnect netOk connectedDlg).dlg = connectedDlg :=
  ⟨by decide,
    (connect_when_connected netOk connectedDlg (by decide)).1,
    (connect_when_connected netOk connectedDlg (by decide)).2.1⟩

/-! ## Send -/

/-- Claim C2. On a dialog whose state is not Connected each of the three
send handlers is a no-op: no library call (so no transport write), the
dialog unchanged, no exception leaving the handler. -/
theorem send_when_not_connected (net : NetOutcome) (d : CLaixiWSAPIDemoDlg)
    (h : d.state ≠ SessionState.Connected) :
    ((OnBnClickedButtonLaunchApp net d).calls = [] ∧
        (OnBnClickedButtonLaunchApp net d).dlg = d ∧
        (OnBnClickedButtonLaunchApp net d).escaped = false) ∧
      ((OnBnClickedButtonToast net d).calls = [] ∧
        (OnBnClickedButtonToast net d).dlg = d ∧
        (OnBnClickedButtonToast net d).escaped = false) ∧
      ((OnBnClickedButtonSlideUp net d).calls = [] ∧
        (OnBnClickedButtonSlideUp net d).dlg = d ∧
        (OnBnClickedButtonSlideUp net d).escaped = false) := by
  have hf : d.m_connectWS = false := by
    cases hd : d.m_connectWS with
    | false => rfl
    | true => exact absurd ((state_connected_iff d).mpr hd) h
  simp [OnBnClickedButtonLaunchApp, OnBnClickedButtonToast, OnBnClickedButtonSlideUp,
    sendLiteral_of_not_flag _ net d hf]

/-- Witness of C2: the three send buttons on the freshly constructed
dialog. -/
theorem send_when_not_connected_witness :
    CLaixiWSAPIDemoDlg.ctor.state ≠ SessionState.Connected ∧
      (OnBnClickedButtonToast netOk CLaixiWSAPIDemoDlg.ctor).calls = [] :=
  ⟨by decide, (send_when_not_connected netOk CLaixiWSAPIDemoDlg.ctor (by decide)).2.1.1⟩

/-- Claim C9, as the specification states it, fails: on the connected
dialog the Toast handler does not write the specification's byte
sequence. -/
theorem toast_payload_differs_from_spec :
    (OnBnClickedButtonToast netOk connectedDlg).calls
      ≠ [(Call.write specToastPayload, true)] := by
  decide

/-- Claim C9, amended. In state Connected the Toast handler makes exactly
one write call, and its payload is the value of the literal after line
splicing: the specification's text with four spaces and two tabs after
`"comm":` and one space after the comma that follows `"all"`.  Dropping the
white space that JSON ignores gives the specification's byte sequence. -/
theorem toast_writes_literal (net : NetOutcome) (d : CLaixiWSAPIDemoDlg)
    (h : d.state = SessionState.Connected) :
    (OnBnClickedButtonToast net d).calls = [(Call.write toastPayload, net.write)] ∧
      literalValue toastLiteral = toastPayload ∧
      compactJson toastPayload = specToastPayload := by
  have hf : d.m_connectWS = true := (state_connected_iff d).mp h
  refine ⟨?_, literalValue_toastLiteral, by decide⟩
  rw [OnBnClickedButtonToast, sendLiteral_of_flag _ net d hf, literalValue_toastLiteral]

/-- Witness of C9 amended: Toast on the connected dialog. -/
theorem toast_writes_literal_witness :
    connectedDlg.state = SessionState.Connected ∧
      (OnBnClickedButtonToast netOk connectedDlg).calls
        = [(Call.write toastPayload, true)] :=
  ⟨by decide, (toast_writes_literal netOk connectedDlg (by decide)).1⟩

/-- Claim C4 at its failing input. On the connected dialog a Toast whose
write throws lets the exception leave the handler and leaves the state
Connected; the next Toast makes a write call again. -/
theorem failed_write_keeps_connected :
    (OnBnClickedButtonToast netWriteFails connectedDlg).calls
        = [(Call.write toastPayload, false)] ∧
      (OnBnClickedButtonToast netWriteFails connectedDlg).escaped = true ∧
      (OnBnClickedButtonToast netWriteFails connectedDlg).dlg.state
        = SessionState.Connected ∧
      (OnBnClickedButtonToast netOk
          (OnBnClickedButtonToast netWriteFails connectedDlg).dlg).calls
        = [(Call.write toastPayload, true)] := by
  decide

/-! ## Disconnect -/

/-- Claim C3 at its failing input. On the connected dialog the Disconnect
handler closes the stream and the state afterwards is still Connected. -/
theorem disconnect_keeps_connected :
    connectedDlg.state = SessionState.Connected ∧
      (OnBnClickedButtonDisconnect netOk connectedDlg).calls = [(Call.close, true)] ∧
      (OnBnClickedButtonDisconnect netOk connectedDlg).escaped = false ∧
      (OnBnClickedButtonDisconnect netOk connectedDlg).dlg.state
        = SessionState.Connected := by
  decide

/-- Claim C5 at its failing input. Two clicks on Disconnect on the connected
dialog: the second one calls close again and the state afterwards is
Connected. -/
theorem second_disconnect_closes_again :
    (clicks [(Button.IDC_BUTTON_DISCONNECT, netOk), (Button.IDC_BUTTON_DISCONNECT, netOk)]
        connectedDlg).map (fun r => r.calls)
        = [[(Call.close, true)], [(Call.close, true)]] ∧
      (dlgAfter [(Button.IDC_BUTTON_DISCONNECT, netOk), (Button.IDC_BUTTON_DISCONNECT, netOk)]
        connectedDlg).state = SessionState.Connected := by
  decide

/-! ## Sequences of clicks -/

/-- Claim C6 at its failing input. Connect, Disconnect, Toast on the freshly
constructed dialog, every library call succeeding: the Toast after the
Disconnect makes a write call. -/
theorem write_after_disconnect :
    (clicks [(Button.IDC_BUTTON_CONNECT, netOk), (Button.IDC_BUTTON_DISCONNECT, netOk),
        (Button.IDC_BUTTON_TOAST, netOk)] CLaixiWSAPIDemoDlg.ctor).map (fun r => r.calls)
      = [[(Call.resolve, true), (Call.connect, true), (Call.ws_set_option, true),
            (Call.handshake, true)],
          [(Call.close, true)],
          [(Call.write toastPayload, true)]] := by
  decide

/-- Claim C8 at its failing inputs. On the connected dialog a write that
throws leaves each send handler as an exception, and a close that throws
leaves the Disconnect handler as an exception; nothing is logged. -/
theorem write_and_close_failures_escape :
    (OnBnClickedButtonLaunchApp netWriteFails connectedDlg).escaped = true ∧
      (OnBnClickedButtonToast netWriteFails connectedDlg).escaped = true ∧
      (OnBnClickedButtonSlideUp netWriteFails connectedDlg).escaped = true ∧
      (OnBnClickedButtonDisconnect netCloseFails connectedDlg).escaped = true ∧
      (OnBnClickedButtonToast netWriteFails connectedDlg).cerr = false ∧
      (OnBnClickedButtonDisconnect netCloseFails connectedDlg).cerr = false := by
  decide

/-- Claim C10. The flag `m_connectWS` is monotone over every sequence of
clicks with arbitrary outcomes: once true after a prefix it is true after
every extension.  A handler changes the flag only from false to true, and
only the Connect handler does; its catch branch runs only when the flag was
false and leaves it false.  From construction on, at most one handshake
succeeds. -/
theorem m_connectWS_monotone (pre post : List (Button × NetOutcome))
    (d : CLaixiWSAPIDemoDlg) (b : Button) (net : NetOutcome) :
    ((dlgAfter pre d).m_connectWS = true → (dlgAfter (pre ++ post) d).m_connectWS = true) ∧
      ((dispatch b net d).dlg.m_connectWS ≠ d.m_connectWS →
        b = Button.IDC_BUTTON_CONNECT ∧ d.m_connectWS = false ∧
          (dispatch b net d).dlg.m_connectWS = true) ∧
      ((dispatch b net d).cerr = true →
        b = Button.IDC_BUTTON_CONNECT ∧ d.m_connectWS = false ∧
          (dispatch b net d).dlg.m_connectWS = false) ∧
      handshakeCount (clicks (pre ++ post) CLaixiWSAPIDemoDlg.ctor) ≤ 1 := by
  refine ⟨?_, ?_, ?_, handshakeCount_clicks_le_one _ _⟩
  · intro h
    rw [dlgAfter_append, dlgAfter_of_flag post _ h]
    exact h
  · intro hne
    cases hd : d.m_connectWS with
    | true => rw [dispatch_keeps_flag b net d hd] at hne; exact absurd rfl hne
    | false =>
      by_cases hb : b = Button.IDC_BUTTON_CONNECT
      · refine ⟨hb, rfl, ?_⟩
        cases hr : (dispatch b net d).dlg.m_connectWS with
        | true => rfl
        | false => rw [hr, hd] at hne; exact absurd rfl hne
      · rw [dispatch_of_not_flag b net d hd hb] at hne
        exact absurd rfl hne
  · intro hc
    cases hd : d.m_connectWS with
    | true =>
      cases b <;>
        simp [dispatch, connect_of_flag, disconnect_of_flag, sendLiteral_of_flag,
          OnBnClickedButtonLaunchApp, OnBnClickedButtonToast, OnBnClickedButtonSlideUp,
          hd] at hc
    | false =>
      by_cases hb : b = Button.IDC_BUTTON_CONNECT
      · subst hb
        refine ⟨rfl, rfl, ?_⟩
        rcases net with ⟨r, c, hs, cl, w⟩
        cases r <;> cases c <;> cases hs <;>
          simp_all [dispatch, OnBnClickedButtonConnect, runCalls]
      · rw [dispatch_of_not_flag b net d hd hb] at hc
        simp at hc

/-- Witness of C10: after Connect (success) the flag is true, and it is still
true after Disconnect, a failing Toast and another Connect. -/
theorem m_connectWS_monotone_witness :
    (dlgAfter [(Button.IDC_BUTTON_CONNECT, netOk)] CLaixiWSAPIDemoDlg.ctor).m_connectWS
        = true ∧
      (dlgAfter ([(Button.IDC_BUTTON_CONNECT, netOk)] ++
          [(Button.IDC_BUTTON_DISCONNECT, netOk), (Button.IDC_BUTTON_TOAST, netWriteFails),
            (Button.IDC_BUTTON_CONNECT, netHandshakeFails)])
        CLaixiWSAPIDemoDlg.ctor).m_connectWS = true :=
  ⟨by decide,
    (m_connectWS_monotone [(Button.IDC_BUTTON_CONNECT, netOk)]
      [(Button.IDC_BUTTON_DISCONNECT, netOk), (Button.IDC_BUTTON_TOAST, netWriteFails),
        (Button.IDC_BUTTON_CONNECT, netHandshakeFails)]
      CLaixiWSAPIDemoDlg.ctor Button.IDC_BUTTON_CONNECT netOk).1 (by decide)⟩

end Laixi
